import Mathlib

/-!
Verification development for the sp2ts library (SheffieldSolar/sp2ts),
a converter between GB electricity-market settlement periods
(a civil date plus a 1-based 30-minute period index) and Unix timestamps.

The embedding mirrors `sp2ts/sp2ts.py`:
* civil dates are represented by their day number since 1970-01-01 (UTC);
* Unix timestamps are natural numbers (negative timestamps are rejected by
  the source before any arithmetic, so they never reach the modelled code);
* the float computation `int(((t % 86400) / 3600.) / 0.5)` in `ts2sp` is
  exact on multiples of 1800 (the only values that reach it, thanks to the
  alignment check), and is embedded as `t % 86400 / 1800`;
* fallible functions return `Except SpError`.
-/

/-- Failure kinds surfaced by the conversion engine (`ValueError`s in the
source, distinguished here by the check that raises them). -/
inductive SpError
  | invalidPeriod
  | invalidClosed
  | dateOutOfRange
  | tsOutOfRange
  | misaligned
deriving DecidableEq, Repr

instance {ε α : Type} [DecidableEq ε] [DecidableEq α] : DecidableEq (Except ε α) := fun a b =>
  match a, b with
  | .ok x, .ok y => if h : x = y then .isTrue (by rw [h]) else .isFalse (by simp [h])
  | .error x, .error y => if h : x = y then .isTrue (by rw [h]) else .isFalse (by simp [h])
  | .ok _, .error _ => .isFalse (by simp)
  | .error _, .ok _ => .isFalse (by simp)

/-- The transition table from `sp2ts.py`: one `(spring, fall)` pair of UTC
midnights per year, 1990 through 2037. -/
def TRANSITION_DATES_TS : List (Nat × Nat) := [
  (638323200, 657072000),
  (670377600, 688521600),
  (701827200, 719971200),
  (733276800, 751420800),
  (764726400, 782870400),
  (796176000, 814320000),
  (828230400, 846374400),
  (859680000, 877824000),
  (891129600, 909273600),
  (922579200, 941328000),
  (954028800, 972777600),
  (985478400, 1004227200),
  (1017532800, 1035676800),
  (1048982400, 1067126400),
  (1080432000, 1099180800),
  (1111881600, 1130630400),
  (1143331200, 1162080000),
  (1174780800, 1193529600),
  (1206835200, 1224979200),
  (1238284800, 1256428800),
  (1269734400, 1288483200),
  (1301184000, 1319932800),
  (1332633600, 1351382400),
  (1364688000, 1382832000),
  (1396137600, 1414281600),
  (1427587200, 1445731200),
  (1459036800, 1477785600),
  (1490486400, 1509235200),
  (1521936000, 1540684800),
  (1553990400, 1572134400),
  (1585440000, 1603584000),
  (1616889600, 1635638400),
  (1648339200, 1667088000),
  (1679788800, 1698537600),
  (1711843200, 1729987200),
  (1743292800, 1761436800),
  (1774742400, 1792886400),
  (1806192000, 1824940800),
  (1837641600, 1856390400),
  (1869091200, 1887840000),
  (1901145600, 1919289600),
  (1932595200, 1950739200),
  (1964044800, 1982793600),
  (1995494400, 2014243200),
  (2026944000, 2045692800),
  (2058393600, 2077142400),
  (2090448000, 2108592000),
  (2121897600, 2140041600)]

/-- Embedding of `TRANSITION_DATES_TS[0][0]`. -/
def firstSpringTs : Nat := (TRANSITION_DATES_TS.headD (0, 0)).1

/-- Embedding of `TRANSITION_DATES_TS[-1][1]`. -/
def lastFallTs : Nat := (TRANSITION_DATES_TS.getLastD (0, 0)).2

/-- The test `any(x[0] < date_ts <= x[1] for x in TRANSITION_DATES_TS)`
used in both `sp2ts` and `ts2sp` to decide whether a day-start timestamp
falls in the BST season. -/
def inBst (dts : Nat) : Bool :=
  TRANSITION_DATES_TS.any (fun x => decide (x.1 < dts) && decide (dts ≤ x.2))

/-- The test `date_ts in [x[0] for x in TRANSITION_DATES_TS]` from `_max_sp`. -/
def isSpringTs (dts : Nat) : Bool := (TRANSITION_DATES_TS.map Prod.fst).contains dts

/-- The test `date_ts in [x[1] for x in TRANSITION_DATES_TS]` from `_max_sp`. -/
def isFallTs (dts : Nat) : Bool := (TRANSITION_DATES_TS.map Prod.snd).contains dts

/-- Embedding of `_max_sp(date_)`: 46 on spring-forward days, 50 on
fall-back days, 48 otherwise.  `date_` is a day number since the epoch, so
`to_unixtime(datetime.combine(date_, time()), "UTC")` is `86400 * date_`. -/
def _max_sp (date_ : Nat) : Nat :=
  let date_ts := 86400 * date_
  if isSpringTs date_ts then 46
  else if isFallTs date_ts then 50
  else 48

/-- Embedding of Python's `str.lower()` (exact on the ASCII strings the
source compares against). -/
def strLower (s : String) : String := ⟨s.data.map Char.toLower⟩

/-- Embedding of `_validate_closed`: the lowered string must be one of
"right", "left", "middle". -/
def _validate_closed (closed : String) : Bool :=
  strLower closed == "right" || strLower closed == "left" || strLower closed == "middle"

/-- Embedding of `from_unixtime(TRANSITION_DATES_TS[0][0]).date()`. -/
def min_date : Nat := firstSpringTs / 86400

/-- Embedding of `from_unixtime(TRANSITION_DATES_TS[-1][1]).date()`. -/
def max_date : Nat := lastFallTs / 86400

/-- Embedding of `sp2ts(date_, sp_, closed)`.  The checks appear in source
order: `_validate_sp` (period bounds against `_max_sp`), `_validate_closed`,
then the supported date range, then the arithmetic. -/
def sp2ts (date_ sp_ : Nat) (closed : String) : Except SpError Nat :=
  if ¬ (1 ≤ sp_ ∧ sp_ ≤ _max_sp date_) then .error .invalidPeriod
  else if ¬ (_validate_closed closed = true) then .error .invalidClosed
  else if date_ < min_date ∨ max_date < date_ then .error .dateOutOfRange
  else
    let date_ts := 86400 * date_
    let ts_raw := date_ts + 30 * 60 * sp_
    let timestamp_ := if inBst date_ts then ts_raw - 3600 else ts_raw
    if strLower closed == "left" then .ok (timestamp_ - 1800)
    else if strLower closed == "middle" then .ok (timestamp_ - 900)
    else .ok timestamp_

/-- Embedding of `ts2sp(timestamp_)`: range check, 1800-alignment check,
naive period arithmetic, BST adjustment, then the two normalization steps
(borrow a day when the raw period is 0; carry a day when it exceeds the
date's maximum). -/
def ts2sp (timestamp_ : Nat) : Except SpError (Nat × Nat) :=
  if timestamp_ < firstSpringTs ∨ lastFallTs < timestamp_ then .error .tsOutOfRange
  else if timestamp_ % 1800 ≠ 0 then .error .misaligned
  else
    let d_ts := timestamp_ / 86400 * 86400
    let date0 := timestamp_ / 86400
    let sp0 := timestamp_ % 86400 / 1800
    let sp1 := if inBst d_ts then sp0 + 2 else sp0
    let dp := if sp1 = 0 then (date0 - 1, _max_sp (date0 - 1)) else (date0, sp1)
    if dp.2 > _max_sp dp.1 then .ok (dp.1 + 1, dp.2 - _max_sp dp.1)
    else .ok (dp.1, dp.2)

/-- Gregorian leap-year rule (as in Python's `datetime.date`). -/
def isLeapYear (y : Nat) : Bool := y % 4 == 0 && (y % 100 != 0 || y % 400 == 0)

/-- Number of days from 1970-01-01 to the start of year `1970 + n`. -/
def daysBeforeYear : Nat → Nat
  | 0 => 0
  | n + 1 => daysBeforeYear n + (if isLeapYear (1970 + n) then 366 else 365)

/-- Number of days before month `m` in a (non-)leap year. -/
def daysBeforeMonth (leap : Bool) (m : Nat) : Nat :=
  let base := [0, 31, 59, 90, 120, 151, 181, 212, 243, 273, 304, 334].getD (m - 1) 0
  if leap && decide (2 < m) then base + 1 else base

/-- Day number since the epoch of the civil date `y-m-d` (for `y ≥ 1970`);
the value `datetime.date(y, m, d).toordinal() - date(1970, 1, 1).toordinal()`. -/
def daysFromCivil (y m d : Nat) : Nat :=
  daysBeforeYear (y - 1970) + daysBeforeMonth (isLeapYear y) m + (d - 1)

/-! Basic facts about the transition table, all established by computation. -/

lemma firstSpringTs_eq : firstSpringTs = 638323200 := rfl

lemma lastFallTs_eq : lastFallTs = 2140041600 := rfl

lemma min_date_eq : min_date = 7388 := rfl

lemma max_date_eq : max_date = 24769 := rfl

/-- Every table timestamp is a UTC midnight. -/
lemma table_mul : ∀ p ∈ TRANSITION_DATES_TS, p.1 % 86400 = 0 ∧ p.2 % 86400 = 0 := by decide

/-- Each year's spring transition is at least two days before its fall one. -/
lemma table_gap : ∀ p ∈ TRANSITION_DATES_TS, p.1 + 172800 ≤ p.2 := by decide

/-- All table timestamps lie within the supported range, away from its ends. -/
lemma table_bounds : ∀ p ∈ TRANSITION_DATES_TS,
    638323200 ≤ p.1 ∧ p.1 ≤ 2139868800 ∧ 638496000 ≤ p.2 ∧ p.2 ≤ 2140041600 := by decide

/-- No spring timestamp lies strictly inside any entry's BST window. -/
lemma table_spring_notin_window : ∀ p ∈ TRANSITION_DATES_TS, ∀ q ∈ TRANSITION_DATES_TS,
    ¬(q.1 < p.1 ∧ p.1 ≤ q.2) := by decide

/-- The day after a fall day lies in no entry's BST window. -/
lemma table_fallsucc_notin_window : ∀ p ∈ TRANSITION_DATES_TS, ∀ q ∈ TRANSITION_DATES_TS,
    ¬(q.1 < p.2 + 86400 ∧ p.2 + 86400 ≤ q.2) := by decide

/-- Spring and fall timestamps are distinct. -/
lemma table_spring_ne_fall : ∀ p ∈ TRANSITION_DATES_TS, ∀ q ∈ TRANSITION_DATES_TS,
    p.1 ≠ q.2 := by decide

/-- No fall timestamp is one day after another fall timestamp. -/
lemma table_fall_ne_fallsucc : ∀ p ∈ TRANSITION_DATES_TS, ∀ q ∈ TRANSITION_DATES_TS,
    p.2 ≠ q.2 + 86400 := by decide

/-- No fall timestamp is one day after a spring timestamp. -/
lemma table_springsucc_ne_fall : ∀ p ∈ TRANSITION_DATES_TS, ∀ q ∈ TRANSITION_DATES_TS,
    q.1 + 86400 ≠ p.2 := by decide

/-- No fall timestamp lies strictly inside another entry's BST window. -/
lemma table_fall_notin_window_strict : ∀ p ∈ TRANSITION_DATES_TS, ∀ q ∈ TRANSITION_DATES_TS,
    ¬(q.1 < p.2 ∧ p.2 < q.2) := by decide

/-! Unfolding characterizations of the table queries. -/

lemma inBst_iff {ts : Nat} :
    inBst ts = true ↔ ∃ p ∈ TRANSITION_DATES_TS, p.1 < ts ∧ ts ≤ p.2 := by
  simp [inBst, List.any_eq_true]

lemma isSpringTs_iff {ts : Nat} :
    isSpringTs ts = true ↔ ∃ p ∈ TRANSITION_DATES_TS, p.1 = ts := by
  simp [isSpringTs, List.contains]

lemma isFallTs_iff {ts : Nat} :
    isFallTs ts = true ↔ ∃ p ∈ TRANSITION_DATES_TS, p.2 = ts := by
  simp [isFallTs, List.contains]

lemma isSpringTs_false_iff {ts : Nat} :
    isSpringTs ts = false ↔ ∀ p ∈ TRANSITION_DATES_TS, p.1 ≠ ts := by
  rw [← Bool.not_eq_true, isSpringTs_iff]; push_neg; rfl

lemma isFallTs_false_iff {ts : Nat} :
    isFallTs ts = false ↔ ∀ p ∈ TRANSITION_DATES_TS, p.2 ≠ ts := by
  rw [← Bool.not_eq_true, isFallTs_iff]; push_neg; rfl

lemma inBst_false_iff {ts : Nat} :
    inBst ts = false ↔ ∀ p ∈ TRANSITION_DATES_TS, ¬(p.1 < ts ∧ ts ≤ p.2) := by
  rw [← Bool.not_eq_true, inBst_iff]; push_neg
  exact forall₂_congr (fun p _ => by tauto)

/-! Classification of civil days: a spring day is never in the BST window,
a fall day always is, and the neighbours of transition days classify in the
unique way used by the round-trip arguments. -/

lemma spring_not_bst {ts : Nat} (h : isSpringTs ts = true) : inBst ts = false := by
  obtain ⟨p, hp, hps⟩ := isSpringTs_iff.1 h
  rw [inBst_false_iff]
  intro q hq hcon
  exact table_spring_notin_window p hp q hq (hps ▸ hcon)

lemma bst_not_spring {ts : Nat} (h : inBst ts = true) : isSpringTs ts = false := by
  by_contra hns
  rw [Bool.not_eq_false] at hns
  rw [spring_not_bst hns] at h
  exact Bool.false_ne_true h

lemma fall_bst {ts : Nat} (h : isFallTs ts = true) : inBst ts = true := by
  obtain ⟨p, hp, hpf⟩ := isFallTs_iff.1 h
  have hg := table_gap p hp
  exact inBst_iff.2 ⟨p, hp, by omega, by omega⟩

lemma fall_not_spring {ts : Nat} (h : isFallTs ts = true) : isSpringTs ts = false := by
  obtain ⟨p, hp, hpf⟩ := isFallTs_iff.1 h
  rw [isSpringTs_false_iff]
  intro q hq hqe
  exact table_spring_ne_fall q hq p hp (by omega)

lemma spring_not_fall {ts : Nat} (h : isSpringTs ts = true) : isFallTs ts = false := by
  by_contra hf
  rw [Bool.not_eq_false] at hf
  rw [fall_not_spring hf] at h
  exact Bool.false_ne_true h

lemma fall_succ_not_bst {ts : Nat} (h : isFallTs ts = true) : inBst (ts + 86400) = false := by
  obtain ⟨p, hp, hpf⟩ := isFallTs_iff.1 h
  rw [inBst_false_iff]
  intro q hq hcon
  exact table_fallsucc_notin_window p hp q hq (by omega)

lemma fall_pred_bst {ts : Nat} (h : isFallTs ts = true) : inBst (ts - 86400) = true := by
  obtain ⟨p, hp, hpf⟩ := isFallTs_iff.1 h
  have hg := table_gap p hp
  exact inBst_iff.2 ⟨p, hp, by omega, by omega⟩

lemma fall_pred_not_spring {ts : Nat} (h : isFallTs ts = true) :
    isSpringTs (ts - 86400) = false := by
  obtain ⟨p, hp, hpf⟩ := isFallTs_iff.1 h
  have hb := table_bounds p hp
  rw [isSpringTs_false_iff]
  intro q hq hqe
  exact table_springsucc_ne_fall p hp q hq (by omega)

lemma fall_pred_not_fall {ts : Nat} (h : isFallTs ts = true) :
    isFallTs (ts - 86400) = false := by
  obtain ⟨p, hp, hpf⟩ := isFallTs_iff.1 h
  have hb := table_bounds p hp
  rw [isFallTs_false_iff]
  intro q hq hqe
  exact table_fall_ne_fallsucc p hp q hq (by omega)

lemma spring_succ_bst {ts : Nat} (h : isSpringTs ts = true) : inBst (ts + 86400) = true := by
  obtain ⟨p, hp, hps⟩ := isSpringTs_iff.1 h
  have hg := table_gap p hp
  exact inBst_iff.2 ⟨p, hp, by omega, by omega⟩

/-! Rewriting rules for the day-length function. -/

lemma max_sp_spring {d : Nat} (h : isSpringTs (86400 * d) = true) : _max_sp d = 46 := by
  simp [_max_sp, h]

lemma max_sp_fall {d : Nat} (h : isFallTs (86400 * d) = true) : _max_sp d = 50 := by
  simp [_max_sp, fall_not_spring h, h]

lemma max_sp_other {d : Nat} (hs : isSpringTs (86400 * d) = false)
    (hf : isFallTs (86400 * d) = false) : _max_sp d = 48 := by
  simp [_max_sp, hs, hf]

lemma max_sp_bounds (d : Nat) : 46 ≤ _max_sp d ∧ _max_sp d ≤ 50 := by
  rw [_max_sp]
  split
  · omega
  · split <;> omega

/-! Bounds on the day numbers of classified days. -/

lemma spring_day_bounds {d : Nat} (h : isSpringTs (86400 * d) = true) :
    7388 ≤ d ∧ d ≤ 24767 := by
  obtain ⟨p, hp, hps⟩ := isSpringTs_iff.1 h
  have hb := table_bounds p hp
  omega

lemma fall_day_bounds {d : Nat} (h : isFallTs (86400 * d) = true) :
    7390 ≤ d ∧ d ≤ 24769 := by
  obtain ⟨p, hp, hpf⟩ := isFallTs_iff.1 h
  have hb := table_bounds p hp
  omega

lemma bst_day_bounds {d : Nat} (h : inBst (86400 * d) = true) :
    7389 ≤ d ∧ d ≤ 24769 := by
  obtain ⟨p, hp, h1, h2⟩ := inBst_iff.1 h
  have hb := table_bounds p hp
  omega

/-- The day after a winter-ordinary day (not in the BST window, not a
spring day) is still not in the BST window. -/
lemma winter_succ_not_bst {d : Nat} (hb : inBst (86400 * d) = false)
    (hs : isSpringTs (86400 * d) = false) : inBst (86400 * (d + 1)) = false := by
  rw [inBst_false_iff]
  intro q hq hcon
  have hm := (table_mul q hq).1
  have hq1 : q.1 ≤ 86400 * d := by omega
  rcases Nat.eq_or_lt_of_le hq1 with heq | hlt
  · exact absurd (isSpringTs_iff.2 ⟨q, hq, heq⟩) (by simp [hs])
  · exact absurd (inBst_iff.2 ⟨q, hq, hlt, by omega⟩) (by simp [hb])

/-- The day after a summer-ordinary day (inside the BST window but not a
fall day) is still in the BST window. -/
lemma summer_succ_bst {d : Nat} (hb : inBst (86400 * d) = true)
    (hf : isFallTs (86400 * d) = false) : inBst (86400 * (d + 1)) = true := by
  obtain ⟨q, hq, h1, h2⟩ := inBst_iff.1 hb
  have hm := (table_mul q hq).2
  have hne : 86400 * d ≠ q.2 := fun he =>
    absurd (isFallTs_iff.2 ⟨q, hq, he.symm⟩) (by simp [hf])
  exact inBst_iff.2 ⟨q, hq, by omega, by omega⟩

/-- The day before a day in the BST window is either the spring day itself
or an earlier summer-ordinary day. -/
lemma bst_pred_classify {d : Nat} (hb : inBst (86400 * d) = true) :
    (isSpringTs (86400 * (d - 1)) = true ∧ inBst (86400 * (d - 1)) = false) ∨
    (inBst (86400 * (d - 1)) = true ∧ isSpringTs (86400 * (d - 1)) = false ∧
      isFallTs (86400 * (d - 1)) = false) := by
  obtain ⟨q, hq, h1, h2⟩ := inBst_iff.1 hb
  have hm := (table_mul q hq).1
  have hd := bst_day_bounds hb
  have hq1 : q.1 ≤ 86400 * (d - 1) := by omega
  rcases Nat.eq_or_lt_of_le hq1 with heq | hlt
  · exact Or.inl ⟨isSpringTs_iff.2 ⟨q, hq, heq⟩,
      spring_not_bst (isSpringTs_iff.2 ⟨q, hq, heq⟩)⟩
  · refine Or.inr ⟨inBst_iff.2 ⟨q, hq, hlt, by omega⟩, ?_, ?_⟩
    · rw [isSpringTs_false_iff]
      intro p hp hpe
      exact table_spring_notin_window p hp q hq (by omega)
    · rw [isFallTs_false_iff]
      intro p hp hpe
      exact table_fall_notin_window_strict p hp q hq (by omega)

/-! Evaluation lemmas for `ts2sp` on validated inputs, one per shape of the
control flow: a timestamp strictly inside a UTC day, with and without the
BST adjustment and with and without the carry into the next day, and a
timestamp at an exact UTC midnight, with and without the borrow from the
previous day. -/

lemma ts2sp_mid_nobst {D r : Nat} (hb : inBst (86400 * D) = false)
    (hr0 : 0 < r) (hr1 : r ≤ 84600) (hmod : r % 1800 = 0)
    (hlo : firstSpringTs ≤ 86400 * D + r) (hhi : 86400 * D + r ≤ lastFallTs)
    (hle : r / 1800 ≤ _max_sp D) :
    ts2sp (86400 * D + r) = .ok (D, r / 1800) := by
  have hM : D * 86400 = 86400 * D := Nat.mul_comm D 86400
  have hD : (86400 * D + r) / 86400 = D := by omega
  have hR : (86400 * D + r) % 86400 = r := by omega
  rw [ts2sp, if_neg (by omega), if_neg (by omega)]
  simp only [hD, hR, hM, hb, Bool.false_eq_true, if_false]
  rw [if_neg (by omega : ¬ r / 1800 = 0)]
  rw [if_neg (by simpa using hle)]

lemma ts2sp_mid_nobst_carry {D r : Nat} (hb : inBst (86400 * D) = false)
    (hr0 : 0 < r) (hr1 : r ≤ 84600) (hmod : r % 1800 = 0)
    (hlo : firstSpringTs ≤ 86400 * D + r) (hhi : 86400 * D + r ≤ lastFallTs)
    (hgt : _max_sp D < r / 1800) :
    ts2sp (86400 * D + r) = .ok (D + 1, r / 1800 - _max_sp D) := by
  have hM : D * 86400 = 86400 * D := Nat.mul_comm D 86400
  have hD : (86400 * D + r) / 86400 = D := by omega
  have hR : (86400 * D + r) % 86400 = r := by omega
  rw [ts2sp, if_neg (by omega), if_neg (by omega)]
  simp only [hD, hR, hM, hb, Bool.false_eq_true, if_false]
  rw [if_neg (by omega : ¬ r / 1800 = 0)]
  rw [if_pos (by simpa using hgt)]

lemma ts2sp_mid_bst {D r : Nat} (hb : inBst (86400 * D) = true)
    (hr0 : 0 < r) (hr1 : r ≤ 84600) (hmod : r % 1800 = 0)
    (hlo : firstSpringTs ≤ 86400 * D + r) (hhi : 86400 * D + r ≤ lastFallTs)
    (hle : r / 1800 + 2 ≤ _max_sp D) :
    ts2sp (86400 * D + r) = .ok (D, r / 1800 + 2) := by
  have hM : D * 86400 = 86400 * D := Nat.mul_comm D 86400
  have hD : (86400 * D + r) / 86400 = D := by omega
  have hR : (86400 * D + r) % 86400 = r := by omega
  rw [ts2sp, if_neg (by omega), if_neg (by omega)]
  simp only [hD, hR, hM, hb, if_true]
  rw [if_neg (by omega : ¬ r / 1800 + 2 = 0)]
  rw [if_neg (by simpa using hle)]

lemma ts2sp_mid_bst_carry {D r : Nat} (hb : inBst (86400 * D) = true)
    (hr0 : 0 < r) (hr1 : r ≤ 84600) (hmod : r % 1800 = 0)
    (hlo : firstSpringTs ≤ 86400 * D + r) (hhi : 86400 * D + r ≤ lastFallTs)
    (hgt : _max_sp D < r / 1800 + 2) :
    ts2sp (86400 * D + r) = .ok (D + 1, r / 1800 + 2 - _max_sp D) := by
  have hM : D * 86400 = 86400 * D := Nat.mul_comm D 86400
  have hD : (86400 * D + r) / 86400 = D := by omega
  have hR : (86400 * D + r) % 86400 = r := by omega
  rw [ts2sp, if_neg (by omega), if_neg (by omega)]
  simp only [hD, hR, hM, hb, if_true]
  rw [if_neg (by omega : ¬ r / 1800 + 2 = 0)]
  rw [if_pos (by simpa using hgt)]

lemma ts2sp_midnight_bst {D : Nat} (hb : inBst (86400 * D) = true)
    (hlo : firstSpringTs ≤ 86400 * D) (hhi : 86400 * D ≤ lastFallTs) :
    ts2sp (86400 * D) = .ok (D, 2) := by
  have hM : D * 86400 = 86400 * D := Nat.mul_comm D 86400
  have hD : 86400 * D / 86400 = D := by omega
  have hR : 86400 * D % 86400 = 0 := by omega
  have hms := max_sp_bounds D
  rw [ts2sp, if_neg (by omega), if_neg (by omega)]
  simp only [hD, hR, hM, hb, if_true, Nat.zero_div]
  norm_num
  omega

lemma ts2sp_midnight_nobst {D : Nat} (hb : inBst (86400 * D) = false)
    (hlo : firstSpringTs ≤ 86400 * D) (hhi : 86400 * D ≤ lastFallTs) :
    ts2sp (86400 * D) = .ok (D - 1, _max_sp (D - 1)) := by
  have hM : D * 86400 = 86400 * D := Nat.mul_comm D 86400
  have hD : 86400 * D / 86400 = D := by omega
  have hR : 86400 * D % 86400 = 0 := by omega
  rw [ts2sp, if_neg (by omega), if_neg (by omega)]
  simp only [hD, hR, hM, hb, Bool.false_eq_true, if_false, Nat.zero_div]
  norm_num

/-! Error-path lemmas. -/

lemma ts2sp_out_of_range {t : Nat} (h : t < firstSpringTs ∨ lastFallTs < t) :
    ts2sp t = .error .tsOutOfRange := by
  rw [ts2sp, if_pos h]

lemma ts2sp_misaligned {t : Nat} (hlo : firstSpringTs ≤ t) (hhi : t ≤ lastFallTs)
    (h : t % 1800 ≠ 0) : ts2sp t = .error .misaligned := by
  rw [ts2sp, if_neg (by omega), if_pos h]

lemma sp2ts_invalidPeriod {d sp : Nat} {c : String} (h : ¬(1 ≤ sp ∧ sp ≤ _max_sp d)) :
    sp2ts d sp c = .error .invalidPeriod := by
  rw [sp2ts, if_pos h]

lemma sp2ts_invalidClosed {d sp : Nat} {c : String} (h1 : 1 ≤ sp ∧ sp ≤ _max_sp d)
    (h2 : _validate_closed c = false) : sp2ts d sp c = .error .invalidClosed := by
  rw [sp2ts, if_neg (not_not_intro h1), if_pos (by simp [h2])]

lemma sp2ts_dateOutOfRange {d sp : Nat} {c : String} (h1 : 1 ≤ sp ∧ sp ≤ _max_sp d)
    (h2 : _validate_closed c = true) (h3 : d < min_date ∨ max_date < d) :
    sp2ts d sp c = .error .dateOutOfRange := by
  rw [sp2ts, if_neg (not_not_intro h1), if_neg (not_not_intro h2), if_pos h3]

lemma sp2ts_valid_not_invalidPeriod {d sp : Nat} {c : String}
    (h : 1 ≤ sp ∧ sp ≤ _max_sp d) : sp2ts d sp c ≠ .error .invalidPeriod := by
  rw [sp2ts, if_neg (not_not_intro h)]
  split
  · exact fun hc => by cases hc
  · split
    · exact fun hc => by cases hc
    · split
      · exact fun hc => Except.noConfusion hc
      · split
        · exact fun hc => Except.noConfusion hc
        · exact fun hc => Except.noConfusion hc

/-! Evaluation lemmas for `sp2ts` on validated inputs, one per boundary mode. -/

lemma sp2ts_right_eval {d sp : Nat} (h1 : 1 ≤ sp) (h2 : sp ≤ _max_sp d)
    (h3 : min_date ≤ d) (h4 : d ≤ max_date) :
    sp2ts d sp "right" =
      .ok (if inBst (86400 * d) then 86400 * d + 1800 * sp - 3600
           else 86400 * d + 1800 * sp) := by
  rw [sp2ts]
  rw [if_neg (not_not_intro ⟨h1, h2⟩)]
  rw [if_neg (not_not_intro (by decide : _validate_closed "right" = true))]
  rw [if_neg (by omega : ¬ (d < min_date ∨ max_date < d))]
  simp only []
  rw [if_neg (by decide : ¬ (strLower "right" == "left") = true)]
  rw [if_neg (by decide : ¬ (strLower "right" == "middle") = true)]

lemma sp2ts_left_eval {d sp : Nat} (h1 : 1 ≤ sp) (h2 : sp ≤ _max_sp d)
    (h3 : min_date ≤ d) (h4 : d ≤ max_date) :
    sp2ts d sp "left" =
      .ok ((if inBst (86400 * d) then 86400 * d + 1800 * sp - 3600
            else 86400 * d + 1800 * sp) - 1800) := by
  rw [sp2ts]
  rw [if_neg (not_not_intro ⟨h1, h2⟩)]
  rw [if_neg (not_not_intro (by decide : _validate_closed "left" = true))]
  rw [if_neg (by omega : ¬ (d < min_date ∨ max_date < d))]
  simp only []
  rw [if_pos (by decide : (strLower "left" == "left") = true)]

lemma sp2ts_middle_eval {d sp : Nat} (h1 : 1 ≤ sp) (h2 : sp ≤ _max_sp d)
    (h3 : min_date ≤ d) (h4 : d ≤ max_date) :
    sp2ts d sp "middle" =
      .ok ((if inBst (86400 * d) then 86400 * d + 1800 * sp - 3600
            else 86400 * d + 1800 * sp) - 900) := by
  rw [sp2ts]
  rw [if_neg (not_not_intro ⟨h1, h2⟩)]
  rw [if_neg (not_not_intro (by decide : _validate_closed "middle" = true))]
  rw [if_neg (by omega : ¬ (d < min_date ∨ max_date < d))]
  simp only []
  rw [if_neg (by decide : ¬ (strLower "middle" == "left") = true)]
  rw [if_pos (by decide : (strLower "middle" == "middle") = true)]

/-- On any validated timestamp, `ts2sp` succeeds and the returned period
index lies within the returned date's day length. -/
lemma ts2sp_ok_valid (t : Nat) (hlo : firstSpringTs ≤ t) (hhi : t ≤ lastFallTs)
    (hmod : t % 1800 = 0) :
    ∃ d sp, ts2sp t = .ok (d, sp) ∧ 1 ≤ sp ∧ sp ≤ _max_sp d := by
  obtain ⟨D, r, hr1, hr2, rfl⟩ : ∃ D r, r ≤ 84600 ∧ r % 1800 = 0 ∧ t = 86400 * D + r :=
    ⟨t / 86400, t % 86400, by omega, by omega, by omega⟩
  rcases Nat.eq_zero_or_pos r with h0 | hpos
  · subst h0
    rw [Nat.add_zero] at hlo hhi ⊢
    cases hbv : inBst (86400 * D)
    · refine ⟨D - 1, _max_sp (D - 1), ts2sp_midnight_nobst hbv hlo hhi, ?_, le_refl _⟩
      have := max_sp_bounds (D - 1); omega
    · refine ⟨D, 2, ts2sp_midnight_bst hbv hlo hhi, by omega, ?_⟩
      have := max_sp_bounds D; omega
  · have hms := max_sp_bounds D
    have hsp0 : 1 ≤ r / 1800 ∧ r / 1800 ≤ 47 := by omega
    cases hbv : inBst (86400 * D)
    · rcases le_or_lt (r / 1800) (_max_sp D) with hle | hgt
      · exact ⟨D, r / 1800, ts2sp_mid_nobst hbv hpos hr1 hr2 hlo hhi hle, by omega, hle⟩
      · refine ⟨D + 1, r / 1800 - _max_sp D,
          ts2sp_mid_nobst_carry hbv hpos hr1 hr2 hlo hhi hgt, by omega, ?_⟩
        have := max_sp_bounds (D + 1); omega
    · rcases le_or_lt (r / 1800 + 2) (_max_sp D) with hle | hgt
      · exact ⟨D, r / 1800 + 2, ts2sp_mid_bst hbv hpos hr1 hr2 hlo hhi hle, by omega, hle⟩
      · refine ⟨D + 1, r / 1800 + 2 - _max_sp D,
          ts2sp_mid_bst_carry hbv hpos hr1 hr2 hlo hhi hgt, by omega, ?_⟩
        have := max_sp_bounds (D + 1); omega

/-- Round trip driven by the timestamp: on any validated timestamp other
than the very first supported one, `ts2sp` yields a pair that `sp2ts` maps
back to the same timestamp. -/
lemma ts2sp_then_sp2ts (t : Nat) (hlo : firstSpringTs ≤ t) (hhi : t ≤ lastFallTs)
    (hmod : t % 1800 = 0) (hne : t ≠ firstSpringTs) :
    ∃ d sp, ts2sp t = .ok (d, sp) ∧ sp2ts d sp "right" = .ok t := by
  obtain ⟨D, r, hr1, hr2, rfl⟩ : ∃ D r, r ≤ 84600 ∧ r % 1800 = 0 ∧ t = 86400 * D + r :=
    ⟨t / 86400, t % 86400, by omega, by omega, by omega⟩
  have Hlo : 638323200 ≤ 86400 * D + r := by rw [firstSpringTs_eq] at hlo; exact hlo
  have Hhi : 86400 * D + r ≤ 2140041600 := by rw [lastFallTs_eq] at hhi; exact hhi
  have Hne : 86400 * D + r ≠ 638323200 := by rw [firstSpringTs_eq] at hne; exact hne
  rcases Nat.eq_zero_or_pos r with h0 | hpos
  · -- exact UTC midnight
    subst h0
    have hDb : 7389 ≤ D ∧ D ≤ 24769 := by omega
    cases hbv : inBst (86400 * D)
    · -- borrow into the previous day
      refine ⟨D - 1, _max_sp (D - 1), ts2sp_midnight_nobst hbv (by omega) (by omega), ?_⟩
      have hmb := max_sp_bounds (D - 1)
      by_cases hf : isFallTs (86400 * (D - 1)) = true
      · have hm := max_sp_fall hf
        rw [sp2ts_right_eval (by omega) (le_refl _) (by rw [min_date_eq]; omega)
          (by rw [max_date_eq]; omega)]
        rw [if_pos (fall_bst hf)]
        exact congrArg _ (by omega)
      · rw [Bool.not_eq_true] at hf
        have hns : isSpringTs (86400 * (D - 1)) = false := by
          cases hss : isSpringTs (86400 * (D - 1))
          · rfl
          · exfalso
            have hsb := spring_succ_bst hss
            rw [(by omega : 86400 * (D - 1) + 86400 = 86400 * D), hbv] at hsb
            exact Bool.false_ne_true hsb
        have hnb : inBst (86400 * (D - 1)) = false := by
          cases hbb : inBst (86400 * (D - 1))
          · rfl
          · exfalso
            have hsb := summer_succ_bst hbb hf
            rw [(by omega : D - 1 + 1 = D), hbv] at hsb
            exact Bool.false_ne_true hsb
        have hm := max_sp_other hns hf
        rw [sp2ts_right_eval (by omega) (le_refl _) (by rw [min_date_eq]; omega)
          (by rw [max_date_eq]; omega)]
        rw [if_neg (by simp [hnb])]
        exact congrArg _ (by omega)
    · -- midnight inside the BST season maps to period 2 of the same day
      refine ⟨D, 2, ts2sp_midnight_bst hbv (by omega) (by omega), ?_⟩
      have hmb := max_sp_bounds D
      rw [sp2ts_right_eval (by omega) (by omega) (by rw [min_date_eq]; omega)
        (by rw [max_date_eq]; omega)]
      rw [if_pos hbv]
      exact congrArg _ (by omega)
  · -- strictly inside a UTC day
    have hDb : 7388 ≤ D ∧ D ≤ 24768 := by omega
    have hsp0 : 1 ≤ r / 1800 ∧ r / 1800 ≤ 47 := by omega
    cases hbv : inBst (86400 * D)
    · by_cases hs : isSpringTs (86400 * D) = true
      · -- spring-forward day, no BST adjustment, 46 periods
        have hm := max_sp_spring hs
        have hsb := spring_day_bounds hs
        rcases le_or_lt (r / 1800) 46 with hle | hgt
        · refine ⟨D, r / 1800,
            ts2sp_mid_nobst hbv hpos hr1 hr2 (by omega) (by omega) (by omega), ?_⟩
          rw [sp2ts_right_eval (by omega) (by omega) (by rw [min_date_eq]; omega)
            (by rw [max_date_eq]; omega)]
          rw [if_neg (by simp [hbv])]
          exact congrArg _ (by omega)
        · -- the 47th naive slot rolls over to period 1 of the next day
          refine ⟨D + 1, r / 1800 - _max_sp D,
            ts2sp_mid_nobst_carry hbv hpos hr1 hr2 (by omega) (by omega) (by omega), ?_⟩
          have hbn : inBst (86400 * (D + 1)) = true := by
            have hsb2 := spring_succ_bst hs
            rw [(by omega : 86400 * D + 86400 = 86400 * (D + 1))] at hsb2
            exact hsb2
          have hmb := max_sp_bounds (D + 1)
          rw [sp2ts_right_eval (by omega) (by omega) (by rw [min_date_eq]; omega)
            (by rw [max_date_eq]; omega)]
          rw [if_pos hbn]
          exact congrArg _ (by omega)
      · -- ordinary GMT-season day, 48 periods, no adjustment, no carry
        rw [Bool.not_eq_true] at hs
        have hf : isFallTs (86400 * D) = false := by
          cases hff : isFallTs (86400 * D)
          · rfl
          · exfalso
            have := fall_bst hff
            rw [hbv] at this
            exact Bool.false_ne_true this
        have hm := max_sp_other hs hf
        refine ⟨D, r / 1800,
          ts2sp_mid_nobst hbv hpos hr1 hr2 (by omega) (by omega) (by omega), ?_⟩
        rw [sp2ts_right_eval (by omega) (by omega) (by rw [min_date_eq]; omega)
          (by rw [max_date_eq]; omega)]
        rw [if_neg (by simp [hbv])]
        exact congrArg _ (by omega)
    · have hs := bst_not_spring hbv
      have hDb2 := bst_day_bounds hbv
      by_cases hf : isFallTs (86400 * D) = true
      · -- fall-back day, 50 periods, adjusted, never carries
        have hm := max_sp_fall hf
        refine ⟨D, r / 1800 + 2,
          ts2sp_mid_bst hbv hpos hr1 hr2 (by omega) (by omega) (by omega), ?_⟩
        rw [sp2ts_right_eval (by omega) (by omega) (by rw [min_date_eq]; omega)
          (by rw [max_date_eq]; omega)]
        rw [if_pos hbv]
        exact congrArg _ (by omega)
      · -- summer-ordinary day, 48 periods, adjusted
        rw [Bool.not_eq_true] at hf
        have hm := max_sp_other hs hf
        rcases le_or_lt (r / 1800 + 2) 48 with hle | hgt
        · refine ⟨D, r / 1800 + 2,
            ts2sp_mid_bst hbv hpos hr1 hr2 (by omega) (by omega) (by omega), ?_⟩
          rw [sp2ts_right_eval (by omega) (by omega) (by rw [min_date_eq]; omega)
            (by rw [max_date_eq]; omega)]
          rw [if_pos hbv]
          exact congrArg _ (by omega)
        · -- the 49th adjusted slot rolls over to period 1 of the next day
          refine ⟨D + 1, r / 1800 + 2 - _max_sp D,
            ts2sp_mid_bst_carry hbv hpos hr1 hr2 (by omega) (by omega) (by omega), ?_⟩
          have hbn := summer_succ_bst hbv hf
          have hDb3 := bst_day_bounds hbn
          have hmb := max_sp_bounds (D + 1)
          rw [sp2ts_right_eval (by omega) (by omega) (by rw [min_date_eq]; omega)
            (by rw [max_date_eq]; omega)]
          rw [if_pos hbn]
          exact congrArg _ (by omega)

/-- Round trip driven by the pair: on any in-range `(date, period)` pair
whose right-closed timestamp is still within the supported range, `ts2sp`
maps that timestamp back to the pair. -/
lemma sp2ts_then_ts2sp (d sp t : Nat) (hd1 : min_date ≤ d) (hd2 : d ≤ max_date)
    (hs1 : 1 ≤ sp) (hs2 : sp ≤ _max_sp d)
    (ht : sp2ts d sp "right" = .ok t) (hle : t ≤ lastFallTs) :
    ts2sp t = .ok (d, sp) := by
  rw [sp2ts_right_eval hs1 hs2 hd1 hd2] at ht
  simp only [Except.ok.injEq] at ht
  have hd1' : 7388 ≤ d := by rw [min_date_eq] at hd1; exact hd1
  have hd2' : d ≤ 24769 := by rw [max_date_eq] at hd2; exact hd2
  by_cases hsp : isSpringTs (86400 * d) = true
  · -- spring-forward day: no adjustment, 46 periods, never wraps
    have hm := max_sp_spring hsp
    have hb := spring_not_bst hsp
    rw [if_neg (by simp [hb])] at ht
    subst ht
    rw [ts2sp_mid_nobst hb (by omega) (by omega) (by omega)
      (by rw [firstSpringTs_eq]; omega) hle (by omega)]
    have : 1800 * sp / 1800 = sp := by omega
    rw [this]
  · rw [Bool.not_eq_true] at hsp
    by_cases hf : isFallTs (86400 * d) = true
    · -- fall-back day: adjusted, 50 periods
      have hm := max_sp_fall hf
      have hb := fall_bst hf
      have hfb := fall_day_bounds hf
      rw [if_pos hb] at ht
      subst ht
      rcases Nat.lt_or_ge sp 2 with h1 | h1
      · -- period 1 ends inside the previous day in UTC terms
        have heq : 86400 * d + 1800 * sp - 3600 = 86400 * (d - 1) + 84600 := by omega
        rw [heq] at hle ⊢
        have hbp : inBst (86400 * (d - 1)) = true := by
          have := fall_pred_bst hf
          rw [(by omega : 86400 * d - 86400 = 86400 * (d - 1))] at this
          exact this
        have hnsp : isSpringTs (86400 * (d - 1)) = false := by
          have := fall_pred_not_spring hf
          rw [(by omega : 86400 * d - 86400 = 86400 * (d - 1))] at this
          exact this
        have hnfp : isFallTs (86400 * (d - 1)) = false := by
          have := fall_pred_not_fall hf
          rw [(by omega : 86400 * d - 86400 = 86400 * (d - 1))] at this
          exact this
        have hmp := max_sp_other hnsp hnfp
        rw [ts2sp_mid_bst_carry hbp (by omega) (by omega) (by omega)
          (by rw [firstSpringTs_eq]; omega) hle (by omega)]
        have e1 : d - 1 + 1 = d := by omega
        have e2 : 84600 / 1800 + 2 - _max_sp (d - 1) = sp := by omega
        rw [e1, e2]
      · rcases Nat.lt_or_ge sp 3 with h2 | h2
        · -- period 2 ends exactly at UTC midnight of the fall day
          have heq : 86400 * d + 1800 * sp - 3600 = 86400 * d := by omega
          rw [heq] at hle ⊢
          rw [ts2sp_midnight_bst hb (by rw [firstSpringTs_eq]; omega) hle]
          have e1 : 2 = sp := by omega
          rw [e1]
        · rcases Nat.lt_or_ge sp 50 with h3 | h3
          · -- periods 3..49 stay inside the fall day
            have heq : 86400 * d + 1800 * sp - 3600 = 86400 * d + 1800 * (sp - 2) := by
              omega
            rw [heq] at hle ⊢
            rw [ts2sp_mid_bst hb (by omega) (by omega) (by omega)
              (by rw [firstSpringTs_eq]; omega) hle (by omega)]
            have e1 : 1800 * (sp - 2) / 1800 + 2 = sp := by omega
            rw [e1]
          · -- period 50 ends at the next UTC midnight and is borrowed back
            have hsp50 : sp = 50 := by omega
            subst hsp50
            have heq : 86400 * d + 1800 * 50 - 3600 = 86400 * (d + 1) := by omega
            rw [heq] at hle ⊢
            have hbn : inBst (86400 * (d + 1)) = false := by
              have := fall_succ_not_bst hf
              rw [(by omega : 86400 * d + 86400 = 86400 * (d + 1))] at this
              exact this
            rw [ts2sp_midnight_nobst hbn (by rw [firstSpringTs_eq]; omega) hle]
            rw [(by omega : d + 1 - 1 = d), hm]
    · rw [Bool.not_eq_true] at hf
      have hm := max_sp_other hsp hf
      cases hbv : inBst (86400 * d)
      · -- winter-ordinary day: no adjustment, 48 periods
        rw [if_neg (by simp [hbv])] at ht
        subst ht
        rcases Nat.lt_or_ge sp 48 with h1 | h1
        · rw [ts2sp_mid_nobst hbv (by omega) (by omega) (by omega)
            (by rw [firstSpringTs_eq]; omega) hle (by omega)]
          have e1 : 1800 * sp / 1800 = sp := by omega
          rw [e1]
        · -- period 48 ends at the next UTC midnight and is borrowed back
          have hsp48 : sp = 48 := by omega
          subst hsp48
          have heq : 86400 * d + 1800 * 48 = 86400 * (d + 1) := by omega
          rw [heq] at hle ⊢
          have hbn : inBst (86400 * (d + 1)) = false := winter_succ_not_bst hbv hsp
          rw [ts2sp_midnight_nobst hbn (by rw [firstSpringTs_eq]; omega) hle]
          rw [(by omega : d + 1 - 1 = d), hm]
      · -- summer-ordinary day: adjusted, 48 periods
        rw [if_pos hbv] at ht
        subst ht
        have hdb := bst_day_bounds hbv
        rcases Nat.lt_or_ge sp 2 with h1 | h1
        · -- period 1 ends inside the previous day in UTC terms
          have heq : 86400 * d + 1800 * sp - 3600 = 86400 * (d - 1) + 84600 := by omega
          rw [heq] at hle ⊢
          rcases bst_pred_classify hbv with ⟨hspp, hnbp⟩ | ⟨hbp, hnsp, hnfp⟩
          · have hmp := max_sp_spring hspp
            rw [ts2sp_mid_nobst_carry hnbp (by omega) (by omega) (by omega)
              (by rw [firstSpringTs_eq]; omega) hle (by omega)]
            have e1 : d - 1 + 1 = d := by omega
            have e2 : 84600 / 1800 - _max_sp (d - 1) = sp := by omega
            rw [e1, e2]
          · have hmp := max_sp_other hnsp hnfp
            rw [ts2sp_mid_bst_carry hbp (by omega) (by omega) (by omega)
              (by rw [firstSpringTs_eq]; omega) hle (by omega)]
            have e1 : d - 1 + 1 = d := by omega
            have e2 : 84600 / 1800 + 2 - _max_sp (d - 1) = sp := by omega
            rw [e1, e2]
        · rcases Nat.lt_or_ge sp 3 with h2 | h2
          · -- period 2 ends exactly at UTC midnight of the day itself
            have heq : 86400 * d + 1800 * sp - 3600 = 86400 * d := by omega
            rw [heq] at hle ⊢
            rw [ts2sp_midnight_bst hbv (by rw [firstSpringTs_eq]; omega) hle]
            have e1 : 2 = sp := by omega
            rw [e1]
          · -- periods 3..48 stay inside the day
            have heq : 86400 * d + 1800 * sp - 3600 = 86400 * d + 1800 * (sp - 2) := by
              omega
            rw [heq] at hle ⊢
            rw [ts2sp_mid_bst hbv (by omega) (by omega) (by omega)
              (by rw [firstSpringTs_eq]; omega) hle (by omega)]
            have e1 : 1800 * (sp - 2) / 1800 + 2 = sp := by omega
            rw [e1]

/-- C1 (counterexample): the pair `(2037-10-25, 3)` is in range (the date is
`max_date`, a 50-period fall-back day), but its right-closed timestamp
2140043400 lies beyond the last table entry's fall value, so converting it
back raises the out-of-range error instead of returning the pair. -/
theorem C1_roundtrip_counterexample :
    min_date ≤ 24769 ∧ 24769 ≤ max_date ∧ 1 ≤ 3 ∧ 3 ≤ _max_sp 24769 ∧
    sp2ts 24769 3 "right" = .ok 2140043400 ∧
    ts2sp 2140043400 = .error .tsOutOfRange ∧
    ¬ ((sp2ts 24769 3 "right").bind ts2sp = .ok (24769, 3)) := by decide

/-- C1 (amended): for every in-range `(date, period)` pair whose
right-closed timestamp does not exceed the last table entry's fall value,
converting the pair to a timestamp and back yields the original pair. -/
theorem C1_roundtrip_amended (d sp t : Nat) (hd1 : min_date ≤ d) (hd2 : d ≤ max_date)
    (hs1 : 1 ≤ sp) (hs2 : sp ≤ _max_sp d)
    (ht : sp2ts d sp "right" = .ok t) (hle : t ≤ lastFallTs) :
    ts2sp t = .ok (d, sp) :=
  sp2ts_then_ts2sp d sp t hd1 hd2 hs1 hs2 ht hle

/-- Witness for C1 at the pair `(2020-03-28, 24)`. -/
theorem C1_roundtrip_amended_witness : ts2sp 1585396800 = .ok (18349, 24) :=
  C1_roundtrip_amended 18349 24 1585396800 (by decide) (by decide) (by decide)
    (by decide) (by decide) (by decide)

/-- C2 (counterexample): the very first supported timestamp 638323200 is in
range and aligned, but `ts2sp` maps it to `(1990-03-24, 48)`, a date below
`min_date`, which `sp2ts` rejects — so the timestamp-side round trip fails
there. -/
theorem C2_roundtrip_counterexample :
    firstSpringTs ≤ 638323200 ∧ 638323200 ≤ lastFallTs ∧ 638323200 % 1800 = 0 ∧
    ts2sp 638323200 = .ok (7387, 48) ∧
    sp2ts 7387 48 "right" = .error .dateOutOfRange := by decide

/-- C2 (amended): every timestamp in the supported range that is a multiple
of 1800, other than the first supported timestamp itself, round-trips
through `ts2sp` and `sp2ts`. -/
theorem C2_roundtrip_amended (t : Nat) (hlo : firstSpringTs ≤ t) (hhi : t ≤ lastFallTs)
    (hmod : t % 1800 = 0) (hne : t ≠ firstSpringTs) :
    ∃ d sp, ts2sp t = .ok (d, sp) ∧ sp2ts d sp "right" = .ok t :=
  ts2sp_then_sp2ts t hlo hhi hmod hne

/-- Witness for C2 at the timestamp 1585396800. -/
theorem C2_roundtrip_amended_witness :
    ∃ d sp, ts2sp 1585396800 = .ok (d, sp) ∧ sp2ts d sp "right" = .ok 1585396800 :=
  C2_roundtrip_amended 1585396800 (by decide) (by decide) (by decide) (by decide)

/-- C3: for every in-range civil date, `_max_sp` returns 46 exactly when
the date's UTC midnight is a spring timestamp of the table, 50 exactly when
it is a fall timestamp, and 48 otherwise. -/
theorem C3_max_sp_classification (d : Nat) (hd1 : min_date ≤ d) (hd2 : d ≤ max_date) :
    (_max_sp d = 46 ↔ isSpringTs (86400 * d) = true) ∧
    (_max_sp d = 50 ↔ isFallTs (86400 * d) = true) ∧
    (isSpringTs (86400 * d) = false → isFallTs (86400 * d) = false → _max_sp d = 48) := by
  by_cases hs : isSpringTs (86400 * d) = true
  · have h46 := max_sp_spring hs
    have hnf := spring_not_fall hs
    exact ⟨⟨fun _ => hs, fun _ => h46⟩,
      ⟨fun h50 => by omega, fun hf => by simp [hnf] at hf⟩,
      fun hs0 _ => by simp [hs] at hs0⟩
  · rw [Bool.not_eq_true] at hs
    by_cases hf : isFallTs (86400 * d) = true
    · have h50 := max_sp_fall hf
      exact ⟨⟨fun h46 => by omega, fun hs1 => by simp [hs] at hs1⟩,
        ⟨fun _ => hf, fun _ => h50⟩,
        fun _ hf0 => by simp [hf] at hf0⟩
    · rw [Bool.not_eq_true] at hf
      have h48 := max_sp_other hs hf
      exact ⟨⟨fun h46 => by omega, fun hs1 => by simp [hs] at hs1⟩,
        ⟨fun h50 => by omega, fun hf1 => by simp [hf] at hf1⟩,
        fun _ _ => h48⟩

/-- Witness for C3 at the spring-forward date `2020-03-29`. -/
theorem C3_max_sp_classification_witness :
    (_max_sp 18350 = 46 ↔ isSpringTs (86400 * 18350) = true) ∧
    (_max_sp 18350 = 50 ↔ isFallTs (86400 * 18350) = true) ∧
    (isSpringTs (86400 * 18350) = false → isFallTs (86400 * 18350) = false →
      _max_sp 18350 = 48) :=
  C3_max_sp_classification 18350 (by decide) (by decide)

/-- C4: the five literal scenarios from the specification hold. -/
theorem C4_literal_scenarios :
    sp2ts (daysFromCivil 2020 3 28) 24 "right" = .ok 1585396800 ∧
    sp2ts (daysFromCivil 2020 3 29) 24 "right" = .ok 1585483200 ∧
    sp2ts (daysFromCivil 2021 3 28) 46 "right" = .ok 1616972400 ∧
    ts2sp 1635724800 = .ok (daysFromCivil 2021 10 31, 50) ∧
    ts2sp 1635726600 = .ok (daysFromCivil 2021 11 1, 1) := by decide

/-- C5: for every in-range pair, the left-boundary timestamp is the
right-boundary one minus 1800 and the middle-boundary one is the
right-boundary one minus 900. -/
theorem C5_boundary_offsets (d sp : Nat) (hd1 : min_date ≤ d) (hd2 : d ≤ max_date)
    (hs1 : 1 ≤ sp) (hs2 : sp ≤ _max_sp d) :
    ∃ t, sp2ts d sp "right" = .ok t ∧ 1800 ≤ t ∧
      sp2ts d sp "left" = .ok (t - 1800) ∧ sp2ts d sp "middle" = .ok (t - 900) := by
  have hd1' : 7388 ≤ d := by rw [min_date_eq] at hd1; exact hd1
  refine ⟨_, sp2ts_right_eval hs1 hs2 hd1 hd2, ?_, sp2ts_left_eval hs1 hs2 hd1 hd2,
    sp2ts_middle_eval hs1 hs2 hd1 hd2⟩
  split <;> omega

/-- Witness for C5 at the pair `(2020-03-28, 24)`. -/
theorem C5_boundary_offsets_witness :
    ∃ t, sp2ts 18349 24 "right" = .ok t ∧ 1800 ≤ t ∧
      sp2ts 18349 24 "left" = .ok (t - 1800) ∧ sp2ts 18349 24 "middle" = .ok (t - 900) :=
  C5_boundary_offsets 18349 24 (by decide) (by decide) (by decide) (by decide)

/-- C6 (counterexample): the source checks the period before the boundary
string and before the date range, so an in-range date with an unrecognized
boundary and an out-of-range period raises the invalid-period error, not
the invalid-enum one, and an out-of-range date with an invalid period also
raises the invalid-period error, not the out-of-range one. -/
theorem C6_validation_order_counterexample :
    min_date ≤ 18349 ∧ 18349 ≤ max_date ∧ _validate_closed "bogus" = false ∧
    ¬ (1 ≤ 0 ∧ 0 ≤ _max_sp 18349) ∧
    sp2ts 18349 0 "bogus" = .error .invalidPeriod ∧
    sp2ts 18349 0 "bogus" ≠ .error .invalidClosed ∧
    max_date < 30000 ∧
    sp2ts 30000 0 "right" = .error .invalidPeriod ∧
    sp2ts 30000 0 "right" ≠ .error .dateOutOfRange := by decide

/-- C6 (amended): the validation order of `sp2ts` is period bounds first
(against the date's own day length), then the boundary string, then the
supported date range; each check raises its own distinct failure kind. -/
theorem C6_validation_order (d sp : Nat) (c : String) :
    (¬ (1 ≤ sp ∧ sp ≤ _max_sp d) → sp2ts d sp c = .error .invalidPeriod) ∧
    ((1 ≤ sp ∧ sp ≤ _max_sp d) → _validate_closed c = false →
      sp2ts d sp c = .error .invalidClosed) ∧
    ((1 ≤ sp ∧ sp ≤ _max_sp d) → _validate_closed c = true →
      (d < min_date ∨ max_date < d) → sp2ts d sp c = .error .dateOutOfRange) :=
  ⟨fun h => sp2ts_invalidPeriod h,
   fun h1 h2 => sp2ts_invalidClosed h1 h2,
   fun h1 h2 h3 => sp2ts_dateOutOfRange h1 h2 h3⟩

/-- Witness for C6: an invalid period together with an invalid boundary
string yields the invalid-period error. -/
theorem C6_validation_order_witness :
    sp2ts 18349 0 "bogus" = .error .invalidPeriod :=
  (C6_validation_order 18349 0 "bogus").1 (by decide)

/-- C7 (counterexample): a misaligned timestamp below the supported range
raises the out-of-range error, not the misaligned one, so the claim's
unrestricted quantification fails. -/
theorem C7_misaligned_counterexample :
    (1 : Nat) % 1800 ≠ 0 ∧ ts2sp 1 = .error .tsOutOfRange ∧
    ts2sp 1 ≠ .error .misaligned := by decide

/-- C7 (amended): within the supported range, `ts2sp` raises the
misaligned error exactly on timestamps not divisible by 1800, and it never
raises that error on a timestamp divisible by 1800. -/
theorem C7_misaligned_amended (t : Nat) :
    (firstSpringTs ≤ t → t ≤ lastFallTs → t % 1800 ≠ 0 →
      ts2sp t = .error .misaligned) ∧
    (t % 1800 = 0 → ts2sp t ≠ .error .misaligned) := by
  constructor
  · exact fun h1 h2 h3 => ts2sp_misaligned h1 h2 h3
  · intro hmod
    by_cases hr : t < firstSpringTs ∨ lastFallTs < t
    · rw [ts2sp_out_of_range hr]; decide
    · push_neg at hr
      obtain ⟨d, sp, heq, _, _⟩ := ts2sp_ok_valid t hr.1 hr.2 hmod
      rw [heq]
      exact fun hc => Except.noConfusion hc

/-- Witness for C7 at the misaligned in-range timestamp 1585396799. -/
theorem C7_misaligned_amended_witness : ts2sp 1585396799 = .error .misaligned :=
  (C7_misaligned_amended 1585396799).1 (by decide) (by decide) (by decide)

/-- C8: `sp2ts` raises the invalid-period error exactly when the period is
outside `[1, _max_sp date]`; in particular periods 0 and 49 on an ordinary
day and 47 on a spring day are rejected, while period 49 on a fall day
succeeds and 51 is rejected. -/
theorem C8_invalid_period_iff :
    (∀ (d sp : Nat) (c : String),
      sp2ts d sp c = .error .invalidPeriod ↔ ¬ (1 ≤ sp ∧ sp ≤ _max_sp d)) ∧
    sp2ts 18349 0 "right" = .error .invalidPeriod ∧
    sp2ts 18349 49 "right" = .error .invalidPeriod ∧
    sp2ts 18350 47 "right" = .error .invalidPeriod ∧
    sp2ts 18931 49 "right" = .ok 1635723000 ∧
    sp2ts 18931 51 "right" = .error .invalidPeriod := by
  refine ⟨fun d sp c => ⟨fun h hval => sp2ts_valid_not_invalidPeriod hval h,
    fun h => sp2ts_invalidPeriod h⟩, ?_, ?_, ?_, ?_, ?_⟩ <;> decide

/-- C9: whenever `ts2sp` succeeds, the returned period index is at least 1
and at most the returned date's day length. -/
theorem C9_result_invariant (t d sp : Nat) (h : ts2sp t = .ok (d, sp)) :
    1 ≤ sp ∧ sp ≤ _max_sp d := by
  by_cases hr : t < firstSpringTs ∨ lastFallTs < t
  · rw [ts2sp_out_of_range hr] at h
    exact Except.noConfusion h
  · push_neg at hr
    by_cases hm : t % 1800 = 0
    · obtain ⟨d', sp', heq, h1, h2⟩ := ts2sp_ok_valid t hr.1 hr.2 hm
      rw [heq] at h
      simp only [Except.ok.injEq, Prod.mk.injEq] at h
      obtain ⟨hd, hsp⟩ := h
      subst hd; subst hsp
      exact ⟨h1, h2⟩
    · rw [ts2sp_misaligned hr.1 hr.2 hm] at h
      exact Except.noConfusion h

/-- Witness for C9 at the timestamp 1585396800. -/
theorem C9_result_invariant_witness : 1 ≤ 24 ∧ 24 ≤ _max_sp 18349 :=
  C9_result_invariant 1585396800 18349 24 (by decide)

/-- C10: the minimum supported timestamp 638323200 converts to
`(1990-03-24, 48)`, the civil day one day before `min_date`, and `sp2ts`
itself rejects that date as out of range. -/
theorem C10_min_timestamp_boundary :
    firstSpringTs = 638323200 ∧
    ts2sp firstSpringTs = .ok (daysFromCivil 1990 3 24, 48) ∧
    daysFromCivil 1990 3 24 + 1 = min_date ∧
    sp2ts (daysFromCivil 1990 3 24) 48 "right" = .error .dateOutOfRange := by decide
